import Mathlib

set_option maxHeartbeats 1000000

/-!
Shallow embedding of the checkout validation and order-placement logic of
the django-oscar-api extension layer: CheckoutSerializer.validate,
CheckoutSerializer.create and CheckoutSerializer._shipping_method from
oscarapi/serializers/checkout.py, CheckoutView.post from
oscarapi/views/checkout.py, and the user-address default-flag handling
from oscarapi/views/address.py.

Monetary amounts are modelled as integers in the currency's minor unit.
External framework collaborators (shipping repository, per-method price
calculation, order-total calculator, order placement) are parameters of
the embedded functions.
-/

/-- Status of a basket (Oscar basket statuses Open / Frozen / Submitted). -/
inductive BasketStatus where
  | opened
  | frozen
  | submitted
deriving DecidableEq, Repr

/-- A basket awaiting checkout; num_items and status are the attributes the
checkout code reads. -/
structure Basket where
  id : Nat
  numItems : Int
  status : BasketStatus
deriving DecidableEq, Repr

/-- The requesting identity. Django users carry a numeric id; the anonymous
user has id None and is_anonymous True. -/
structure User where
  id : Option Nat
  isAnonymous : Bool
deriving DecidableEq, Repr

/-- A monetary price (oscar.core.prices.Price) with tax known: currency,
amount excluding tax, and tax amount, in minor units. -/
structure Price where
  currency : String
  exclTax : Int
  tax : Int
deriving DecidableEq, Repr

/-- Tax-inclusive amount of a price: incl_tax = excl_tax + tax. -/
def Price.inclTax (p : Price) : Int :=
  p.exclTax + p.tax

/-- Equality test of oscar.core.prices.Price: two prices are equal exactly
when currency, excl_tax and incl_tax all match. -/
def Price.eqPrice (p q : Price) : Bool :=
  p.currency == q.currency && p.exclTax == q.exclTax && p.inclTax == q.inclTax

/-- A shipping method as the checkout code sees it, identified by its code. -/
structure ShippingMethod where
  code : String
  name : String
deriving DecidableEq, Repr

/-- An address payload (shipping or billing); its fields are opaque to the
checkout validation logic, which only passes it through. -/
structure Address where
  payload : String
deriving DecidableEq, Repr

/-- A vehicle; the checkout code reads vehicle.customer.user.id, modelled
here as ownerUserId. -/
structure Vehicle where
  id : Nat
  ownerUserId : Nat
deriving DecidableEq, Repr

/-- Global configuration read by the serializer
(django settings OSCAR_ALLOW_ANON_CHECKOUT). -/
structure CheckoutConfig where
  allowAnonCheckout : Bool
deriving DecidableEq, Repr

/-- External collaborators of the checkout serializer: the shipping
repository (default method and eligible-method list), the per-method price
calculation (ShippingMethod.calculate) and the order-total calculator
(OrderTotalCalculator.calculate, returning a price whose incl_tax is the
order total). -/
structure Collaborators where
  getDefaultShippingMethod : Basket → User → Option Address → ShippingMethod
  getShippingMethods : Basket → User → Option Address → List ShippingMethod
  calcShipping : ShippingMethod → Basket → Price
  calcTotal : Basket → Price → Price

/-- The deserialized fields of a checkout request, the attrs passed to
CheckoutSerializer.validate. -/
structure CheckoutAttrs where
  basket : Basket
  guestEmail : Option String
  total : Option Int
  shippingMethodCode : Option String
  shippingCharge : Option Price
  shippingAddress : Option Address
  billingAddress : Option Address
  vehicle : Option Vehicle
deriving DecidableEq, Repr

/-- Validation errors raised by CheckoutSerializer.validate, tagged by
raise site. The serializer raises ValidationError; the view surfaces any
of these as a 406 response with the error payload. -/
inductive CheckoutError where
  | forbiddenAnonymous
  | invalidStateEmptyBasket
  | conflictShippingCharge (posted computed : Price)
  | conflictTotal (posted computedInclTax : Int)
  | forbiddenVehicle
deriving DecidableEq, Repr

/-- The attrs returned by a successful CheckoutSerializer.validate: the
original fields updated with the authoritative order_total,
shipping_method and shipping_charge. -/
structure ValidatedIntent where
  basket : Basket
  shippingMethod : ShippingMethod
  shippingCharge : Price
  orderTotal : Price
  guestEmail : Option String
  shippingAddress : Option Address
  billingAddress : Option Address
  vehicle : Option Vehicle
deriving DecidableEq, Repr

/-- CheckoutSerializer shipping method lookup (source method named with a
leading underscore): compute the default method from the repository, and
when a shipping_method_code was posted scan the eligible methods for the
first one whose code matches, falling back silently to the default. -/
def checkoutShippingMethod (co : Collaborators) (user : User) (basket : Basket)
    (methodCode : Option String) (shippingAddr : Option Address) : ShippingMethod :=
  let dflt := co.getDefaultShippingMethod basket user shippingAddr
  match methodCode with
  | some code =>
      let methods := co.getShippingMethods basket user shippingAddr
      (methods.find? fun s => s.code == code).getD dflt
  | none => dflt

/-- State-free shipping method resolution (spec section 4.2): the pure
function of candidate list, requested code and default implemented by
checkoutShippingMethod. -/
def shippingMethodResolve (candidates : List ShippingMethod)
    (requestedCode : Option String) (dflt : ShippingMethod) : ShippingMethod :=
  match requestedCode with
  | some code => (candidates.find? fun s => s.code == code).getD dflt
  | none => dflt

/-- Build the validated attrs returned on success. -/
def mkValidatedIntent (attrs : CheckoutAttrs) (sm : ShippingMethod)
    (sc total : Price) : ValidatedIntent :=
  { basket := attrs.basket
    shippingMethod := sm
    shippingCharge := sc
    orderTotal := total
    guestEmail := attrs.guestEmail
    shippingAddress := attrs.shippingAddress
    billingAddress := attrs.billingAddress
    vehicle := attrs.vehicle }

/-- Final step of validate: the vehicle ownership check. If a vehicle was
posted and its owning customer's user id differs from the requesting
user's id, raise; otherwise return the updated attrs. -/
def vehicleCheckStep (user : User) (attrs : CheckoutAttrs)
    (sm : ShippingMethod) (sc total : Price) : Except CheckoutError ValidatedIntent :=
  match attrs.vehicle with
  | some v =>
      if (some v.ownerUserId) ≠ user.id then
        Except.error CheckoutError.forbiddenVehicle
      else
        Except.ok (mkValidatedIntent attrs sm sc total)
  | none => Except.ok (mkValidatedIntent attrs sm sc total)

/-- Total-reconciliation step of validate: compute the authoritative order
total from basket and shipping charge; when a total was posted it must
equal the computed total's incl_tax, else raise echoing both values. -/
def totalCheckStep (co : Collaborators) (user : User) (attrs : CheckoutAttrs)
    (sm : ShippingMethod) (sc : Price) : Except CheckoutError ValidatedIntent :=
  match attrs.total with
  | some t =>
      if t ≠ (co.calcTotal attrs.basket sc).inclTax then
        Except.error (CheckoutError.conflictTotal t (co.calcTotal attrs.basket sc).inclTax)
      else
        vehicleCheckStep user attrs sm sc (co.calcTotal attrs.basket sc)
  | none => vehicleCheckStep user attrs sm sc (co.calcTotal attrs.basket sc)

/-- Shipping-charge reconciliation step of validate: compute the
authoritative shipping charge by the resolved method's price calculation;
when a shipping charge was posted it must be equal (as prices) to the
computed one, else raise echoing both values. -/
def shippingChargeCheckStep (co : Collaborators) (user : User)
    (attrs : CheckoutAttrs) (sm : ShippingMethod) : Except CheckoutError ValidatedIntent :=
  match attrs.shippingCharge with
  | some posted =>
      if (posted.eqPrice (co.calcShipping sm attrs.basket)) = false then
        Except.error (CheckoutError.conflictShippingCharge posted (co.calcShipping sm attrs.basket))
      else
        totalCheckStep co user attrs sm (co.calcShipping sm attrs.basket)
  | none => totalCheckStep co user attrs sm (co.calcShipping sm attrs.basket)

/-- CheckoutSerializer.validate: the anonymous-checkout gate, the
non-empty-basket gate, shipping method resolution, shipping-charge
reconciliation, total reconciliation and the vehicle ownership check, in
source order. -/
def validate (cfg : CheckoutConfig) (co : Collaborators) (user : User)
    (attrs : CheckoutAttrs) : Except CheckoutError ValidatedIntent :=
  if user.isAnonymous && !cfg.allowAnonCheckout then
    Except.error CheckoutError.forbiddenAnonymous
  else if attrs.basket.numItems ≤ 0 then
    Except.error CheckoutError.invalidStateEmptyBasket
  else
    shippingChargeCheckStep co user attrs
      (checkoutShippingMethod co user attrs.basket attrs.shippingMethodCode
        attrs.shippingAddress)

/-- The shipping method validate resolves for given attrs. -/
def computedShippingMethod (co : Collaborators) (user : User)
    (attrs : CheckoutAttrs) : ShippingMethod :=
  checkoutShippingMethod co user attrs.basket attrs.shippingMethodCode
    attrs.shippingAddress

/-- The authoritative shipping charge validate computes for given attrs. -/
def computedShippingCharge (co : Collaborators) (user : User)
    (attrs : CheckoutAttrs) : Price :=
  co.calcShipping (computedShippingMethod co user attrs) attrs.basket

/-- The authoritative order total validate computes for given attrs. -/
def computedOrderTotal (co : Collaborators) (user : User)
    (attrs : CheckoutAttrs) : Price :=
  co.calcTotal attrs.basket (computedShippingCharge co user attrs)

/-- The anonymous-checkout gate condition: true when the request is blocked. -/
def anonGateBlocked (cfg : CheckoutConfig) (user : User) : Bool :=
  user.isAnonymous && !cfg.allowAnonCheckout

/-- Whether the shipping-charge reconciliation check passes on these attrs:
no charge posted, or the posted charge equal (as prices) to the computed
one. -/
def shippingChargeCheckOk (co : Collaborators) (user : User)
    (attrs : CheckoutAttrs) : Bool :=
  match attrs.shippingCharge with
  | some posted => posted.eqPrice (computedShippingCharge co user attrs)
  | none => true

/-- Whether the total reconciliation check passes on these attrs: no total
posted, or the posted total equal to the computed total's incl_tax. -/
def totalCheckOk (co : Collaborators) (user : User)
    (attrs : CheckoutAttrs) : Bool :=
  match attrs.total with
  | some t => t == (computedOrderTotal co user attrs).inclTax
  | none => true

/-- A persisted order as far as the embedded logic observes it (named Order
in the source; renamed here to avoid clashing with the ambient Order
namespace). -/
structure PlacedOrder where
  number : String
  basketId : Nat
  userId : Option Nat
  guestEmail : String
  totalInclTax : Int
deriving DecidableEq, Repr

/-- The fully validated command CheckoutSerializer.create hands to the
order-placement collaborator (the arguments of place_order). -/
structure PlacementCommand where
  orderNumber : String
  userId : Option Nat
  basket : Basket
  shippingAddress : Option Address
  shippingMethod : ShippingMethod
  shippingCharge : Price
  billingAddress : Option Address
  orderTotal : Price
  guestEmail : String
  vehicle : Option Vehicle
deriving DecidableEq, Repr

/-- Modelled from the spec: outcome of the external order-placement
collaborator (Oscar's OrderPlacementMixin.place_order, not part of this
repository). Per spec section 6 it either returns the created Order or
signals a uniqueness conflict (a duplicate order number), which the
collaborator raises as a catchable ValueError; any other storage fault is
a distinct, unrelated exception. -/
inductive PlacementOutcome where
  | placed (o : PlacedOrder)
  | uniquenessViolation (msg : String)
  | otherFault (msg : String)
deriving DecidableEq, Repr

/-- Result of CheckoutSerializer.create as the caller observes it: the
created order, a DRF NotAcceptable error (a distinguishable client-visible
error, surfaced as a 406 response), or an uncaught exception surfaced as a
generic server failure. -/
inductive CreateResult where
  | created (o : PlacedOrder)
  | notAcceptable (msg : String)
  | serverFailure (msg : String)
deriving DecidableEq, Repr

/-- The placement command CheckoutSerializer.create builds from the
validated attrs: a generated order number scoped by the basket, the
requesting user, the basket, address payloads converted to order-owned
address records, the authoritative shipping method, charge and total, the
guest email (empty string when absent) and the optional vehicle. -/
def placementCommand (generateOrderNumber : Basket → String) (user : User)
    (vi : ValidatedIntent) : PlacementCommand :=
  { orderNumber := generateOrderNumber vi.basket
    userId := user.id
    basket := vi.basket
    shippingAddress := vi.shippingAddress
    shippingMethod := vi.shippingMethod
    shippingCharge := vi.shippingCharge
    billingAddress := vi.billingAddress
    orderTotal := vi.orderTotal
    guestEmail := vi.guestEmail.getD ""
    vehicle := vi.vehicle }

/-- CheckoutSerializer.create: hand the placement command to place_order;
a ValueError raised by placement (in particular the uniqueness-violation
signal for a duplicate order number) is caught and re-raised as
exceptions.NotAcceptable carrying the message; any other exception
propagates as a generic server failure. -/
def checkoutCreate (generateOrderNumber : Basket → String)
    (placeOrder : PlacementCommand → PlacementOutcome) (user : User)
    (vi : ValidatedIntent) : CreateResult :=
  match placeOrder (placementCommand generateOrderNumber user vi) with
  | PlacementOutcome.placed o => CreateResult.created o
  | PlacementOutcome.uniquenessViolation msg => CreateResult.notAcceptable msg
  | PlacementOutcome.otherFault msg => CreateResult.serverFailure msg

/-- Body of an HTTP response from the checkout view. -/
inductive ResponseBody where
  | unauthorizedText
  | orderData (o : PlacedOrder)
  | validationErrors (e : CheckoutError)
  | createError (msg : String)
deriving DecidableEq, Repr

/-- An HTTP response: status code and body. -/
structure HttpResponse where
  status : Nat
  body : ResponseBody
deriving DecidableEq, Repr

/-- Basket.freeze: the one-way transition to the frozen status. -/
def Basket.freeze (b : Basket) : Basket :=
  { b with status := BasketStatus.frozen }

/-- Modelled from the spec: whether the framework permits mutating a
basket. Per the data-model invariant (spec section 3) a basket is mutable
only while open; once frozen it is immutable. -/
def Basket.canBeMutated (b : Basket) : Bool :=
  b.status == BasketStatus.opened

/-- CheckoutView.post: deny with 401 when basket access is not allowed;
run serializer validation and respond 406 with the structured errors when
it fails; otherwise save (place the order), freeze the basket and respond
200 with the created order. A NotAcceptable raised while saving surfaces
as a 406 without freezing; an uncaught placement fault surfaces as a 500
without freezing. The state of the posted basket is returned alongside
the response. -/
def checkoutPost (cfg : CheckoutConfig) (co : Collaborators)
    (generateOrderNumber : Basket → String)
    (placeOrder : PlacementCommand → PlacementOutcome)
    (accessAllowed : Bool) (user : User) (attrs : CheckoutAttrs) :
    HttpResponse × Basket :=
  let basket := attrs.basket
  if accessAllowed = false then
    ({ status := 401, body := ResponseBody.unauthorizedText }, basket)
  else
    match validate cfg co user attrs with
    | Except.error e =>
        ({ status := 406, body := ResponseBody.validationErrors e }, basket)
    | Except.ok vi =>
        match checkoutCreate generateOrderNumber placeOrder user vi with
        | CreateResult.created o =>
            ({ status := 200, body := ResponseBody.orderData o }, basket.freeze)
        | CreateResult.notAcceptable msg =>
            ({ status := 406, body := ResponseBody.createError msg }, basket)
        | CreateResult.serverFailure msg =>
            ({ status := 500, body := ResponseBody.createError msg }, basket)

/-- A saved user address as the address views observe it: primary key,
owning user, the duplicate-checked address name, and the two default
flags. -/
structure UserAddress where
  id : Nat
  userId : Nat
  addressName : Option String
  isDefaultForShipping : Bool
  isDefaultForBilling : Bool
deriving DecidableEq, Repr

/-- The stored collection of user addresses, in database iteration order. -/
abbrev AddressBook := List UserAddress

/-- The queryset update that clears is_default_for_shipping on every
address of the given user. -/
def unsetShippingDefaults (userId : Nat) (s : AddressBook) : AddressBook :=
  s.map fun a =>
    if a.userId == userId && a.isDefaultForShipping then
      { a with isDefaultForShipping := false }
    else a

/-- UserAddressListCreateView.perform_create: reject a duplicate
(user, address_name) pair; when the new address is flagged default for
shipping, first clear the flag on the user's existing addresses; then save
the new address owned by the requesting user. -/
def performCreate (s : AddressBook) (userId : Nat) (newAddr : UserAddress) :
    Except String AddressBook :=
  if s.any fun a => a.userId == userId && a.addressName == newAddr.addressName then
    Except.error "An address with this name already exists for the user."
  else
    Except.ok
      ((if newAddr.isDefaultForShipping then unsetShippingDefaults userId s else s) ++
        [{ newAddr with userId := userId }])

/-- UserAddressDetailView.update: look the instance up in the queryset
filtered to the requesting user (no change when it is absent); when the
posted data flags it default for shipping, first clear the flag on the
user's existing addresses; then save the instance with the posted data,
its id and owner unchanged. -/
def updateAddress (s : AddressBook) (userId addrId : Nat)
    (newData : UserAddress) : AddressBook :=
  if (s.find? fun a => a.id == addrId && a.userId == userId).isSome then
    (if newData.isDefaultForShipping then unsetShippingDefaults userId s else s).map
      fun a =>
        if a.id == addrId then { newData with id := addrId, userId := userId } else a
  else s

/-- UserAddressDetailView.perform_destroy: delete the instance (looked up
in the queryset filtered to the requesting user); when the deleted address
was the shipping default, promote the user's first remaining address, if
any, to shipping default. -/
def destroyAddress (s : AddressBook) (userId addrId : Nat) : AddressBook :=
  match s.find? fun a => a.id == addrId && a.userId == userId with
  | none => s
  | some inst =>
      if inst.isDefaultForShipping then
        match (s.filter fun a => !(a.id == addrId)).find? fun a => a.userId == userId with
        | some fa =>
            (s.filter fun a => !(a.id == addrId)).map fun a =>
              if a.id == fa.id then { a with isDefaultForShipping := true } else a
        | none => s.filter fun a => !(a.id == addrId)
      else s.filter fun a => !(a.id == addrId)

/-- The address type posted to SetDefaultAddressView. -/
inductive AddressType where
  | shipping
  | billing
  | invalid
deriving DecidableEq, Repr

/-- SetDefaultAddressView.update: fetch the target address from the
unfiltered queryset of all addresses (no ownership restriction); for type
shipping, clear is_default_for_shipping on the requesting user's addresses
and set it on the target; for type billing, the same with the billing
flag; any other type is rejected without change. -/
def setDefaultAddress (s : AddressBook) (requesterId addrId : Nat)
    (ty : AddressType) : AddressBook :=
  match s.find? fun a => a.id == addrId with
  | none => s
  | some _ =>
      match ty with
      | AddressType.shipping =>
          (unsetShippingDefaults requesterId s).map fun a =>
            if a.id == addrId then { a with isDefaultForShipping := true } else a
      | AddressType.billing =>
          (s.map fun a =>
            if a.userId == requesterId && a.isDefaultForBilling then
              { a with isDefaultForBilling := false }
            else a).map fun a =>
              if a.id == addrId then { a with isDefaultForBilling := true } else a
      | AddressType.invalid => s

/-- Number of addresses of the given user flagged default for shipping. -/
def defaultShippingCount (userId : Nat) (s : AddressBook) : Nat :=
  s.countP fun a => a.userId == userId && a.isDefaultForShipping

/-- The invariant: the user has at most one default-for-shipping address. -/
def atMostOneDefaultShipping (userId : Nat) (s : AddressBook) : Prop :=
  defaultShippingCount userId s ≤ 1

/-- Test fixture: shipping method with code A. -/
def smA : ShippingMethod := { code := "A", name := "method a" }

/-- Test fixture: shipping method with code B. -/
def smB : ShippingMethod := { code := "B", name := "method b" }

/-- Test fixture: shipping method with code C, used as default. -/
def smC : ShippingMethod := { code := "C", name := "method c" }

/-- Test fixture: a shipping charge of EUR 10.00 excl tax plus 0.60 tax. -/
def priceEUR : Price := { currency := "EUR", exclTax := 1000, tax := 60 }

/-- Test fixture: the order total EUR 99.40 excl tax plus 0.60 tax,
100.00 incl tax. -/
def totalEUR : Price := { currency := "EUR", exclTax := 9940, tax := 60 }

/-- Test fixture: collaborators with constant prices; the basket alone
costs EUR 89.40 excl tax, so with the shipping charge the order total is
EUR 100.00 incl tax. -/
def coTest : Collaborators :=
  { getDefaultShippingMethod := fun _ _ _ => smC
    getShippingMethods := fun _ _ _ => [smA, smB]
    calcShipping := fun _ _ => priceEUR
    calcTotal := fun _ p => { currency := "EUR", exclTax := 8940 + p.exclTax, tax := p.tax } }

/-- Test fixture: an open basket holding two items. -/
def basketTest : Basket := { id := 1, numItems := 2, status := BasketStatus.opened }

/-- Test fixture: an open empty basket. -/
def emptyBasketTest : Basket := { id := 2, numItems := 0, status := BasketStatus.opened }

/-- Test fixture: an authenticated user with id 7. -/
def userTest : User := { id := some 7, isAnonymous := false }

/-- Test fixture: the anonymous user. -/
def anonUserTest : User := { id := none, isAnonymous := true }

/-- Test fixture: a vehicle owned by user 7. -/
def vehicleTest : Vehicle := { id := 5, ownerUserId := 7 }

/-- Test fixture: a vehicle owned by user 8. -/
def foreignVehicleTest : Vehicle := { id := 6, ownerUserId := 8 }

/-- Test fixture: configuration allowing anonymous checkout. -/
def cfgAllow : CheckoutConfig := { allowAnonCheckout := true }

/-- Test fixture: configuration forbidding anonymous checkout. -/
def cfgDeny : CheckoutConfig := { allowAnonCheckout := false }

/-- Test fixture: a checkout request with only the basket set. -/
def attrsTest : CheckoutAttrs :=
  { basket := basketTest
    guestEmail := none
    total := none
    shippingMethodCode := none
    shippingCharge := none
    shippingAddress := none
    billingAddress := none
    vehicle := none }

/-- Test fixture: the same request against the empty basket. -/
def emptyAttrsTest : CheckoutAttrs := { attrsTest with basket := emptyBasketTest }

/-- Test fixture: validated attrs for the basic request. -/
def viTest : ValidatedIntent := mkValidatedIntent attrsTest smC priceEUR totalEUR

/-- Test fixture: order-number generation. -/
def genTest : Basket → String := fun _ => "100001"

/-- Test fixture: placement that signals a duplicate order number. -/
def placeDupTest : PlacementCommand → PlacementOutcome :=
  fun _ => PlacementOutcome.uniquenessViolation "duplicate order number"

/-- Test fixture: placement that persists the order. -/
def placeOkTest : PlacementCommand → PlacementOutcome :=
  fun c => PlacementOutcome.placed
    { number := c.orderNumber
      basketId := c.basket.id
      userId := c.userId
      guestEmail := c.guestEmail
      totalInclTax := c.orderTotal.inclTax }

/-- Price equality in the sense of the checkout comparison coincides with
structural equality: since incl_tax is excl_tax plus tax, matching on
currency, excl_tax and incl_tax matches every field. -/
theorem Price.eqPrice_iff_eq (p q : Price) : p.eqPrice q = true ↔ p = q := by
  cases p with
  | mk c e t =>
    cases q with
    | mk c' e' t' =>
      simp only [Price.eqPrice, Price.inclTax, Bool.and_eq_true, beq_iff_eq,
        Price.mk.injEq]
      constructor
      · rintro ⟨⟨hc, he⟩, ht⟩
        exact ⟨hc, he, by omega⟩
      · rintro ⟨hc, he, ht⟩
        exact ⟨⟨hc, he⟩, by omega⟩

/-- Structural price equality spelled out field by field. -/
theorem Price.eq_iff_fields (p q : Price) :
    p = q ↔ (p.currency = q.currency ∧ p.exclTax = q.exclTax ∧ p.tax = q.tax) := by
  cases p
  cases q
  simp [Price.mk.injEq]

/-- The vehicle step either rejects with the vehicle-ownership error or
returns the updated attrs. -/
theorem vehicleCheckStep_cases (user : User) (attrs : CheckoutAttrs)
    (sm : ShippingMethod) (sc total : Price) :
    vehicleCheckStep user attrs sm sc total =
        Except.error CheckoutError.forbiddenVehicle ∨
    vehicleCheckStep user attrs sm sc total =
        Except.ok (mkValidatedIntent attrs sm sc total) := by
  unfold vehicleCheckStep
  cases attrs.vehicle with
  | none => right; rfl
  | some v =>
      by_cases h : (some v.ownerUserId ≠ user.id)
      · left; simp [h]
      · right; simp [h]

/-- The total step either rejects with the total-conflict error for the
posted total, or proceeds to the vehicle step. -/
theorem totalCheckStep_cases (co : Collaborators) (user : User)
    (attrs : CheckoutAttrs) (sm : ShippingMethod) (sc : Price) :
    (∃ t, attrs.total = some t ∧
      totalCheckStep co user attrs sm sc =
        Except.error (CheckoutError.conflictTotal t (co.calcTotal attrs.basket sc).inclTax)) ∨
    totalCheckStep co user attrs sm sc =
      vehicleCheckStep user attrs sm sc (co.calcTotal attrs.basket sc) := by
  unfold totalCheckStep
  cases h : attrs.total with
  | none => right; rfl
  | some t =>
      by_cases hne : t ≠ (co.calcTotal attrs.basket sc).inclTax
      · left; exact ⟨t, rfl, by simp [hne]⟩
      · right; simp [hne]

/-- The shipping-charge step either rejects with the shipping-conflict
error for the posted charge, or proceeds to the total step. -/
theorem shippingChargeCheckStep_cases (co : Collaborators) (user : User)
    (attrs : CheckoutAttrs) (sm : ShippingMethod) :
    (∃ p, attrs.shippingCharge = some p ∧
      shippingChargeCheckStep co user attrs sm =
        Except.error (CheckoutError.conflictShippingCharge p (co.calcShipping sm attrs.basket))) ∨
    shippingChargeCheckStep co user attrs sm =
      totalCheckStep co user attrs sm (co.calcShipping sm attrs.basket) := by
  unfold shippingChargeCheckStep
  cases h : attrs.shippingCharge with
  | none => right; rfl
  | some p =>
      by_cases hf : p.eqPrice (co.calcShipping sm attrs.basket) = false
      · left; exact ⟨p, rfl, by simp [hf]⟩
      · right; simp [hf]

/-- Under the two gates, validate runs the shipping-charge step on the
resolved shipping method. -/
theorem validate_eq_shippingStep (cfg : CheckoutConfig) (co : Collaborators)
    (user : User) (attrs : CheckoutAttrs)
    (hanon : anonGateBlocked cfg user = false)
    (hitems : 0 < attrs.basket.numItems) :
    validate cfg co user attrs =
      shippingChargeCheckStep co user attrs (computedShippingMethod co user attrs) := by
  have h1 : (user.isAnonymous && !cfg.allowAnonCheckout) = false := hanon
  have h2 : ¬ (attrs.basket.numItems ≤ 0) := by omega
  simp [validate, h1, h2, computedShippingMethod]

/-- Under the two gates and a passing shipping-charge check, validate runs
the total step on the computed shipping charge. -/
theorem validate_eq_totalStep (cfg : CheckoutConfig) (co : Collaborators)
    (user : User) (attrs : CheckoutAttrs)
    (hanon : anonGateBlocked cfg user = false)
    (hitems : 0 < attrs.basket.numItems)
    (hship : shippingChargeCheckOk co user attrs = true) :
    validate cfg co user attrs =
      totalCheckStep co user attrs (computedShippingMethod co user attrs)
        (computedShippingCharge co user attrs) := by
  rw [validate_eq_shippingStep cfg co user attrs hanon hitems]
  unfold shippingChargeCheckStep
  unfold shippingChargeCheckOk at hship
  cases h : attrs.shippingCharge
  · simp [computedShippingCharge]
  · rw [h] at hship
    simp only [computedShippingCharge] at hship
    simp [hship, computedShippingCharge]

/-- Under the two gates and passing shipping-charge and total checks,
validate runs the vehicle step on the computed values. -/
theorem validate_eq_vehicleStep (cfg : CheckoutConfig) (co : Collaborators)
    (user : User) (attrs : CheckoutAttrs)
    (hanon : anonGateBlocked cfg user = false)
    (hitems : 0 < attrs.basket.numItems)
    (hship : shippingChargeCheckOk co user attrs = true)
    (htot : totalCheckOk co user attrs = true) :
    validate cfg co user attrs =
      vehicleCheckStep user attrs (computedShippingMethod co user attrs)
        (computedShippingCharge co user attrs) (computedOrderTotal co user attrs) := by
  rw [validate_eq_totalStep cfg co user attrs hanon hitems hship]
  unfold totalCheckStep
  unfold totalCheckOk at htot
  cases h : attrs.total
  · simp [computedOrderTotal]
  · rw [h] at htot
    simp only [beq_iff_eq, computedOrderTotal, computedShippingCharge] at htot
    simp [htot, computedOrderTotal, computedShippingCharge]

/-- A successful vehicle step returns exactly the updated attrs. -/
theorem vehicleCheckStep_ok (user : User) (attrs : CheckoutAttrs)
    (sm : ShippingMethod) (sc total : Price) (vi : ValidatedIntent)
    (h : vehicleCheckStep user attrs sm sc total = Except.ok vi) :
    vi = mkValidatedIntent attrs sm sc total := by
  rcases vehicleCheckStep_cases user attrs sm sc total with hc | hc
  · rw [hc] at h; cases h
  · rw [hc] at h
    injection h with h
    exact h.symm

/-- A successful validate returns exactly the attrs updated with the
computed shipping method, shipping charge and order total. -/
theorem validate_ok_shape (cfg : CheckoutConfig) (co : Collaborators)
    (user : User) (attrs : CheckoutAttrs) (vi : ValidatedIntent)
    (h : validate cfg co user attrs = Except.ok vi) :
    vi = mkValidatedIntent attrs (computedShippingMethod co user attrs)
          (computedShippingCharge co user attrs) (computedOrderTotal co user attrs) := by
  unfold validate at h
  split at h
  · cases h
  · split at h
    · cases h
    · rcases shippingChargeCheckStep_cases co user attrs
        (checkoutShippingMethod co user attrs.basket attrs.shippingMethodCode
          attrs.shippingAddress) with ⟨p, _, hc⟩ | hc
      · rw [hc] at h; cases h
      · rw [hc] at h
        rcases totalCheckStep_cases co user attrs
          (checkoutShippingMethod co user attrs.basket attrs.shippingMethodCode
            attrs.shippingAddress)
          (co.calcShipping
            (checkoutShippingMethod co user attrs.basket attrs.shippingMethodCode
              attrs.shippingAddress) attrs.basket) with ⟨t, _, hc2⟩ | hc2
        · rw [hc2] at h; cases h
        · rw [hc2] at h
          have := vehicleCheckStep_ok _ _ _ _ _ _ h
          simpa [computedShippingMethod, computedShippingCharge,
            computedOrderTotal] using this

/-- Every possible outcome of validate: one of the five errors, each tied
to its trigger, or success with the computed authoritative values. -/
theorem validate_result_cases (cfg : CheckoutConfig) (co : Collaborators)
    (user : User) (attrs : CheckoutAttrs) :
    validate cfg co user attrs = Except.error CheckoutError.forbiddenAnonymous ∨
    validate cfg co user attrs = Except.error CheckoutError.invalidStateEmptyBasket ∨
    (∃ p, attrs.shippingCharge = some p ∧
      validate cfg co user attrs =
        Except.error (CheckoutError.conflictShippingCharge p (computedShippingCharge co user attrs))) ∨
    (∃ t, attrs.total = some t ∧
      validate cfg co user attrs =
        Except.error (CheckoutError.conflictTotal t (computedOrderTotal co user attrs).inclTax)) ∨
    (∃ v, attrs.vehicle = some v ∧
      validate cfg co user attrs = Except.error CheckoutError.forbiddenVehicle) ∨
    validate cfg co user attrs =
      Except.ok (mkValidatedIntent attrs (computedShippingMethod co user attrs)
        (computedShippingCharge co user attrs) (computedOrderTotal co user attrs)) := by
  unfold validate
  split
  · exact Or.inl rfl
  · split
    · exact Or.inr (Or.inl rfl)
    · rcases shippingChargeCheckStep_cases co user attrs
        (checkoutShippingMethod co user attrs.basket attrs.shippingMethodCode
          attrs.shippingAddress) with ⟨p, hp, hc⟩ | hc
      · refine Or.inr (Or.inr (Or.inl ⟨p, hp, ?_⟩))
        rw [hc]
        rfl
      · rw [hc]
        rcases totalCheckStep_cases co user attrs
          (checkoutShippingMethod co user attrs.basket attrs.shippingMethodCode
            attrs.shippingAddress)
          (co.calcShipping
            (checkoutShippingMethod co user attrs.basket attrs.shippingMethodCode
              attrs.shippingAddress) attrs.basket) with ⟨t, ht, hc2⟩ | hc2
        · refine Or.inr (Or.inr (Or.inr (Or.inl ⟨t, ht, ?_⟩)))
          rw [hc2]
          rfl
        · rw [hc2]
          unfold vehicleCheckStep
          cases hv : attrs.vehicle with
          | none =>
              refine Or.inr (Or.inr (Or.inr (Or.inr (Or.inr ?_))))
              rfl
          | some v =>
              by_cases ho : (some v.ownerUserId ≠ user.id)
              · exact Or.inr (Or.inr (Or.inr (Or.inr (Or.inl ⟨v, rfl, by simp [ho]⟩))))
              · refine Or.inr (Or.inr (Or.inr (Or.inr (Or.inr ?_))))
                simp [ho, computedShippingMethod, computedShippingCharge,
                  computedOrderTotal]

/-- C4: for every checkout intent, when the requesting actor is anonymous
and anonymous checkout is disabled by configuration, validate fails with
the Forbidden (anonymous-checkout) error regardless of the values of all
other intent fields. -/
theorem validate_anonymous_forbidden (cfg : CheckoutConfig) (co : Collaborators)
    (user : User) (attrs : CheckoutAttrs)
    (hanon : user.isAnonymous = true) (hcfg : cfg.allowAnonCheckout = false) :
    validate cfg co user attrs = Except.error CheckoutError.forbiddenAnonymous := by
  simp [validate, hanon, hcfg]

/-- C4 witness: the anonymous user with anonymous checkout disabled is
rejected at a concrete request. -/
theorem validate_anonymous_forbidden_witness :
    validate cfgDeny coTest anonUserTest attrsTest =
      Except.error CheckoutError.forbiddenAnonymous :=
  validate_anonymous_forbidden cfgDeny coTest anonUserTest attrsTest rfl rfl

/-- C5: for every checkout intent whose basket has item count at most
zero, once the anonymous gate passes validate fails with the InvalidState
(empty basket) error; moreover the result does not depend on the shipping
or total collaborators at all, so shipping-method resolution and total
computation are never reached for an empty basket. -/
theorem validate_empty_basket_invalid_state (cfg : CheckoutConfig)
    (co co' : Collaborators) (user : User) (attrs : CheckoutAttrs)
    (hempty : attrs.basket.numItems ≤ 0) :
    (anonGateBlocked cfg user = false →
      validate cfg co user attrs = Except.error CheckoutError.invalidStateEmptyBasket)
    ∧ validate cfg co user attrs = validate cfg co' user attrs := by
  constructor
  · intro hgate
    have h1 : (user.isAnonymous && !cfg.allowAnonCheckout) = false := hgate
    simp [validate, h1, hempty]
  · unfold validate
    cases h : (user.isAnonymous && !cfg.allowAnonCheckout) <;> simp [hempty]

/-- C5 witness: a concrete empty-basket request by an authenticated user
is rejected with the empty-basket error. -/
theorem validate_empty_basket_invalid_state_witness :
    validate cfgAllow coTest userTest emptyAttrsTest =
      Except.error CheckoutError.invalidStateEmptyBasket :=
  (validate_empty_basket_invalid_state cfgAllow coTest coTest userTest
    emptyAttrsTest (by decide)).1 rfl

/-- C3: shipping method resolution is the pure function of the ordered
candidate list, the optional requested code and the default: with no code
it returns the default; with a code it returns the first candidate in the
given order whose code matches, and the default when none matches;
checkoutShippingMethod is exactly this resolution applied to the
repository's candidate list and default; and on the concrete data of the
claim, resolve([A,B], B, C) = B, resolve([A,B], Z, C) = C and
resolve([A,B], None, C) = C. -/
theorem shippingMethodResolve_spec :
    (∀ (candidates : List ShippingMethod) (dflt : ShippingMethod),
        shippingMethodResolve candidates none dflt = dflt)
    ∧ (∀ (l1 l2 : List ShippingMethod) (m dflt : ShippingMethod) (c : String),
        (∀ x ∈ l1, x.code ≠ c) → m.code = c →
        shippingMethodResolve (l1 ++ m :: l2) (some c) dflt = m)
    ∧ (∀ (candidates : List ShippingMethod) (dflt : ShippingMethod) (c : String),
        (∀ x ∈ candidates, x.code ≠ c) →
        shippingMethodResolve candidates (some c) dflt = dflt)
    ∧ (∀ (co : Collaborators) (user : User) (basket : Basket)
        (methodCode : Option String) (addr : Option Address),
        checkoutShippingMethod co user basket methodCode addr =
          shippingMethodResolve (co.getShippingMethods basket user addr) methodCode
            (co.getDefaultShippingMethod basket user addr))
    ∧ shippingMethodResolve [smA, smB] (some "B") smC = smB
    ∧ shippingMethodResolve [smA, smB] (some "Z") smC = smC
    ∧ shippingMethodResolve [smA, smB] none smC = smC := by
  refine ⟨fun _ _ => rfl, ?_, ?_, ?_, by decide, by decide, by decide⟩
  · intro l1 l2 m dflt c hl1 hm
    simp only [shippingMethodResolve]
    induction l1 with
    | nil =>
        rw [List.nil_append, List.find?_cons_of_pos]
        · rfl
        · simp [hm]
    | cons x xs ih =>
        rw [List.cons_append, List.find?_cons_of_neg]
        · exact ih fun y hy => hl1 y (List.mem_cons_of_mem x hy)
        · simp [hl1 x (List.mem_cons_self x xs)]
  · intro candidates dflt c hnone
    simp only [shippingMethodResolve]
    rw [List.find?_eq_none.mpr]
    · rfl
    · intro x hx
      simp [hnone x hx]
  · intro co user basket methodCode addr
    cases methodCode <;> rfl

/-- C3 witness: the first-match clause applied at the concrete candidate
list of the claim. -/
theorem shippingMethodResolve_spec_witness :
    shippingMethodResolve [smA, smB] (some "B") smC = smB :=
  shippingMethodResolve_spec.2.1 [smA] [] smB smC "B" (by decide) rfl

/-- Reduction of the total step when a total was posted. -/
theorem totalCheckStep_posted (co : Collaborators) (user : User)
    (attrs : CheckoutAttrs) (sm : ShippingMethod) (sc : Price) (t : Int)
    (ht : attrs.total = some t) :
    totalCheckStep co user attrs sm sc =
      if t ≠ (co.calcTotal attrs.basket sc).inclTax then
        Except.error (CheckoutError.conflictTotal t (co.calcTotal attrs.basket sc).inclTax)
      else vehicleCheckStep user attrs sm sc (co.calcTotal attrs.basket sc) := by
  unfold totalCheckStep
  rw [ht]

/-- Reduction of the shipping-charge step when a charge was posted. -/
theorem shippingChargeCheckStep_posted (co : Collaborators) (user : User)
    (attrs : CheckoutAttrs) (sm : ShippingMethod) (p : Price)
    (hp : attrs.shippingCharge = some p) :
    shippingChargeCheckStep co user attrs sm =
      if (p.eqPrice (co.calcShipping sm attrs.basket)) = false then
        Except.error (CheckoutError.conflictShippingCharge p (co.calcShipping sm attrs.basket))
      else totalCheckStep co user attrs sm (co.calcShipping sm attrs.basket) := by
  unfold shippingChargeCheckStep
  rw [hp]

/-- Reduction of the vehicle step when a vehicle was posted. -/
theorem vehicleCheckStep_posted (user : User) (attrs : CheckoutAttrs)
    (sm : ShippingMethod) (sc total : Price) (v : Vehicle)
    (hv : attrs.vehicle = some v) :
    vehicleCheckStep user attrs sm sc total =
      if (some v.ownerUserId) ≠ user.id then
        Except.error CheckoutError.forbiddenVehicle
      else Except.ok (mkValidatedIntent attrs sm sc total) := by
  unfold vehicleCheckStep
  rw [hv]

/-- C1: once the anonymous gate, the non-empty-basket gate and the
shipping-charge check pass, for a checkout intent with an asserted total
validate fails with the Conflict error echoing the asserted and the
computed values exactly when the asserted total differs from the computed
order total's tax-inclusive amount; when they are equal the check passes
and validation proceeds to the vehicle check. -/
theorem validate_total_conflict_iff (cfg : CheckoutConfig) (co : Collaborators)
    (user : User) (attrs : CheckoutAttrs) (t : Int)
    (hanon : anonGateBlocked cfg user = false)
    (hitems : 0 < attrs.basket.numItems)
    (hship : shippingChargeCheckOk co user attrs = true)
    (ht : attrs.total = some t) :
    (validate cfg co user attrs =
        Except.error (CheckoutError.conflictTotal t (computedOrderTotal co user attrs).inclTax)
      ↔ t ≠ (computedOrderTotal co user attrs).inclTax)
    ∧ (t = (computedOrderTotal co user attrs).inclTax →
        validate cfg co user attrs =
          vehicleCheckStep user attrs (computedShippingMethod co user attrs)
            (computedShippingCharge co user attrs) (computedOrderTotal co user attrs)) := by
  have hts := validate_eq_totalStep cfg co user attrs hanon hitems hship
  have hstep := totalCheckStep_posted co user attrs
    (computedShippingMethod co user attrs) (computedShippingCharge co user attrs) t ht
  have hfold : co.calcTotal attrs.basket (computedShippingCharge co user attrs) =
      computedOrderTotal co user attrs := rfl
  rw [hfold] at hstep
  rw [hstep] at hts
  constructor
  · constructor
    · intro heq hceq
      rw [hts, if_neg (fun h => h hceq)] at heq
      rcases vehicleCheckStep_cases user attrs (computedShippingMethod co user attrs)
        (computedShippingCharge co user attrs) (computedOrderTotal co user attrs) with hc | hc
      · rw [hc] at heq; simp at heq
      · rw [hc] at heq; simp at heq
    · intro hne
      rw [hts, if_pos hne]
  · intro hteq
    rw [hts, if_neg (fun h => h hteq)]

/-- C1 witness: a concrete request asserting total 99.99 against the
computed 100.00 is rejected with the total-conflict error. -/
theorem validate_total_conflict_iff_witness :
    validate cfgAllow coTest userTest { attrsTest with total := some 9999 } =
      Except.error (CheckoutError.conflictTotal 9999
        (computedOrderTotal coTest userTest { attrsTest with total := some 9999 }).inclTax) :=
  (validate_total_conflict_iff cfgAllow coTest userTest
    { attrsTest with total := some 9999 } 9999 rfl (by decide) rfl rfl).1.mpr (by decide)

/-- C2: once the anonymous gate and the non-empty-basket gate pass, for a
checkout intent with an asserted shipping charge validate fails with the
Conflict error reporting the posted and the computed charge exactly when
the asserted charge is not equal to the computed price in currency,
excl-tax amount and tax; when they are exactly equal the check passes and
validation proceeds to the total check. -/
theorem validate_shipping_conflict_iff (cfg : CheckoutConfig) (co : Collaborators)
    (user : User) (attrs : CheckoutAttrs) (p : Price)
    (hanon : anonGateBlocked cfg user = false)
    (hitems : 0 < attrs.basket.numItems)
    (hp : attrs.shippingCharge = some p) :
    (validate cfg co user attrs =
        Except.error (CheckoutError.conflictShippingCharge p (computedShippingCharge co user attrs))
      ↔ ¬(p.currency = (computedShippingCharge co user attrs).currency ∧
          p.exclTax = (computedShippingCharge co user attrs).exclTax ∧
          p.tax = (computedShippingCharge co user attrs).tax))
    ∧ (p = computedShippingCharge co user attrs →
        validate cfg co user attrs =
          totalCheckStep co user attrs (computedShippingMethod co user attrs)
            (computedShippingCharge co user attrs)) := by
  have hss := validate_eq_shippingStep cfg co user attrs hanon hitems
  have hstep := shippingChargeCheckStep_posted co user attrs
    (computedShippingMethod co user attrs) p hp
  have hfold : co.calcShipping (computedShippingMethod co user attrs) attrs.basket =
      computedShippingCharge co user attrs := rfl
  rw [hfold] at hstep
  rw [hstep] at hss
  have hiff : (p.eqPrice (computedShippingCharge co user attrs)) = true ↔
      (p.currency = (computedShippingCharge co user attrs).currency ∧
       p.exclTax = (computedShippingCharge co user attrs).exclTax ∧
       p.tax = (computedShippingCharge co user attrs).tax) :=
    (Price.eqPrice_iff_eq p (computedShippingCharge co user attrs)).trans
      (Price.eq_iff_fields p (computedShippingCharge co user attrs))
  constructor
  · constructor
    · intro heq hfields
      have htrue : p.eqPrice (computedShippingCharge co user attrs) = true :=
        hiff.mpr hfields
      rw [hss, if_neg (by simp [htrue])] at heq
      rcases totalCheckStep_cases co user attrs (computedShippingMethod co user attrs)
        (computedShippingCharge co user attrs) with ⟨t, ht, hc⟩ | hc
      · rw [hc] at heq; simp at heq
      · rw [hc] at heq
        rcases vehicleCheckStep_cases user attrs (computedShippingMethod co user attrs)
          (computedShippingCharge co user attrs)
          (co.calcTotal attrs.basket (computedShippingCharge co user attrs)) with hc2 | hc2
        · rw [hc2] at heq; simp at heq
        · rw [hc2] at heq; simp at heq
    · intro hfields
      have hfalse : p.eqPrice (computedShippingCharge co user attrs) = false :=
        Bool.eq_false_iff.mpr (fun h => hfields (hiff.mp h))
      rw [hss, if_pos hfalse]
  · intro hpe
    have htrue : p.eqPrice (computedShippingCharge co user attrs) = true :=
      (Price.eqPrice_iff_eq p (computedShippingCharge co user attrs)).mpr hpe
    rw [hss, if_neg (by simp [htrue])]

/-- C2 witness: a concrete request asserting a shipping charge of EUR 9.99
excl tax against the computed EUR 10.00 is rejected with the
shipping-conflict error. -/
theorem validate_shipping_conflict_iff_witness :
    validate cfgAllow coTest userTest
        { attrsTest with shippingCharge := some { currency := "EUR", exclTax := 999, tax := 60 } } =
      Except.error (CheckoutError.conflictShippingCharge
        { currency := "EUR", exclTax := 999, tax := 60 }
        (computedShippingCharge coTest userTest
          { attrsTest with shippingCharge := some { currency := "EUR", exclTax := 999, tax := 60 } })) :=
  (validate_shipping_conflict_iff cfgAllow coTest userTest
    { attrsTest with shippingCharge := some { currency := "EUR", exclTax := 999, tax := 60 } }
    { currency := "EUR", exclTax := 999, tax := 60 } rfl (by decide) rfl).1.mpr (by decide)

/-- C6: client-asserted values are never the source of truth: two checkout
intents identical except in the asserted total and asserted shipping
charge that both validate successfully yield validated attrs with equal
authoritative shipping charges and equal order totals. -/
theorem validate_asserted_values_not_authoritative (cfg : CheckoutConfig)
    (co : Collaborators) (user : User) (attrs : CheckoutAttrs)
    (t1 t2 : Option Int) (sc1 sc2 : Option Price) (vi1 vi2 : ValidatedIntent)
    (h1 : validate cfg co user { attrs with total := t1, shippingCharge := sc1 } = Except.ok vi1)
    (h2 : validate cfg co user { attrs with total := t2, shippingCharge := sc2 } = Except.ok vi2) :
    vi1.shippingCharge = vi2.shippingCharge ∧ vi1.orderTotal = vi2.orderTotal := by
  have e1 := validate_ok_shape cfg co user _ vi1 h1
  have e2 := validate_ok_shape cfg co user _ vi2 h2
  rw [e1, e2]
  exact ⟨rfl, rfl⟩

/-- C6 witness: the basic request with no assertions and the same request
asserting the (correct) total and shipping charge validate to the same
authoritative values. -/
theorem validate_asserted_values_not_authoritative_witness :
    viTest.shippingCharge = viTest.shippingCharge ∧
    viTest.orderTotal = viTest.orderTotal :=
  validate_asserted_values_not_authoritative cfgAllow coTest userTest attrsTest
    none (some 10000) none (some priceEUR) viTest viTest rfl rfl

/-- C7: once the earlier checks pass, a checkout intent that supplies a
vehicle is rejected with the Forbidden (vehicle ownership) error exactly
when the vehicle's owning customer's user differs from the requesting
actor, and validates successfully when the actor owns it; when no vehicle
is supplied, validate never fails with the vehicle-ownership error. -/
theorem validate_vehicle_ownership (cfg : CheckoutConfig) (co : Collaborators)
    (user : User) (attrs : CheckoutAttrs) (v : Vehicle) :
    ((anonGateBlocked cfg user = false) → (0 < attrs.basket.numItems) →
      shippingChargeCheckOk co user attrs = true →
      totalCheckOk co user attrs = true →
      attrs.vehicle = some v →
      ((validate cfg co user attrs = Except.error CheckoutError.forbiddenVehicle ↔
          (some v.ownerUserId) ≠ user.id)
        ∧ ((some v.ownerUserId) = user.id →
            validate cfg co user attrs = Except.ok
              (mkValidatedIntent attrs (computedShippingMethod co user attrs)
                (computedShippingCharge co user attrs)
                (computedOrderTotal co user attrs)))))
    ∧ (attrs.vehicle = none →
        validate cfg co user attrs ≠ Except.error CheckoutError.forbiddenVehicle) := by
  constructor
  · intro hanon hitems hship htot hv
    have hvs := validate_eq_vehicleStep cfg co user attrs hanon hitems hship htot
    have hstep := vehicleCheckStep_posted user attrs
      (computedShippingMethod co user attrs) (computedShippingCharge co user attrs)
      (computedOrderTotal co user attrs) v hv
    rw [hstep] at hvs
    constructor
    · constructor
      · intro heq hno
        rw [hvs, if_neg (fun h => h hno)] at heq
        simp at heq
      · intro hne
        rw [hvs, if_pos hne]
    · intro hown
      rw [hvs, if_neg (fun h => h hown)]
  · intro hv heq
    rcases validate_result_cases cfg co user attrs with
      h | h | ⟨p, hp, h⟩ | ⟨t, ht, h⟩ | ⟨v', hv', h⟩ | h
    · rw [h] at heq; simp at heq
    · rw [h] at heq; simp at heq
    · rw [h] at heq; simp at heq
    · rw [h] at heq; simp at heq
    · rw [hv] at hv'; cases hv'
    · rw [h] at heq; simp at heq

/-- C7 witness: a concrete request supplying a vehicle owned by user 8,
made by user 7, is rejected with the vehicle-ownership error. -/
theorem validate_vehicle_ownership_witness :
    validate cfgAllow coTest userTest
        { attrsTest with vehicle := some foreignVehicleTest } =
      Except.error CheckoutError.forbiddenVehicle :=
  ((validate_vehicle_ownership cfgAllow coTest userTest
    { attrsTest with vehicle := some foreignVehicleTest } foreignVehicleTest).1
    rfl (by decide) rfl rfl rfl).1.mpr (by decide)

/-- C8: when the placement collaborator fails with the
uniqueness-violation signal (duplicate order number), the caller of
create receives the distinguishable NotAcceptable error carrying that
message — the Conflict-class outcome surfaced as a 406 — and never the
generic server failure. -/
theorem create_uniqueness_conflict (generateOrderNumber : Basket → String)
    (placeOrder : PlacementCommand → PlacementOutcome) (user : User)
    (vi : ValidatedIntent) (msg : String)
    (h : placeOrder (placementCommand generateOrderNumber user vi) =
      PlacementOutcome.uniquenessViolation msg) :
    checkoutCreate generateOrderNumber placeOrder user vi =
        CreateResult.notAcceptable msg ∧
    ∀ m, checkoutCreate generateOrderNumber placeOrder user vi ≠
        CreateResult.serverFailure m := by
  unfold checkoutCreate
  rw [h]
  exact ⟨rfl, fun m hc => by cases hc⟩

/-- C8 witness: a concrete placement signalling a duplicate order number
surfaces as NotAcceptable with the same message. -/
theorem create_uniqueness_conflict_witness :
    checkoutCreate genTest placeDupTest userTest viTest =
      CreateResult.notAcceptable "duplicate order number" :=
  (create_uniqueness_conflict genTest placeDupTest userTest viTest
    "duplicate order number" rfl).1

/-- C9: for every checkout POST, when basket access is denied the response
is 401; when the payload fails validation the response is 406 carrying the
structured validation errors; and when validation passes and the order is
created the response is 200 carrying the created order, the basket is
transitioned to frozen, and no further mutation of it is permitted. -/
theorem checkoutPost_contract (cfg : CheckoutConfig) (co : Collaborators)
    (generateOrderNumber : Basket → String)
    (placeOrder : PlacementCommand → PlacementOutcome)
    (access : Bool) (user : User) (attrs : CheckoutAttrs) :
    (access = false →
      checkoutPost cfg co generateOrderNumber placeOrder access user attrs =
        ({ status := 401, body := ResponseBody.unauthorizedText }, attrs.basket))
    ∧ (∀ e, access = true → validate cfg co user attrs = Except.error e →
        checkoutPost cfg co generateOrderNumber placeOrder access user attrs =
          ({ status := 406, body := ResponseBody.validationErrors e }, attrs.basket))
    ∧ (∀ vi o, access = true → validate cfg co user attrs = Except.ok vi →
        checkoutCreate generateOrderNumber placeOrder user vi = CreateResult.created o →
        ((checkoutPost cfg co generateOrderNumber placeOrder access user attrs).1 =
            { status := 200, body := ResponseBody.orderData o }
          ∧ (checkoutPost cfg co generateOrderNumber placeOrder access user attrs).2.status =
              BasketStatus.frozen
          ∧ (checkoutPost cfg co generateOrderNumber placeOrder access user attrs).2.canBeMutated =
              false)) := by
  refine ⟨?_, ?_, ?_⟩
  · intro ha
    simp [checkoutPost, ha]
  · intro e ha hv
    simp [checkoutPost, ha, hv]
  · intro vi o ha hv hc
    simp [checkoutPost, ha, hv, hc, Basket.freeze, Basket.canBeMutated]

/-- C9 witness: the basic concrete request with access allowed and a
successful placement responds 200 with the order and leaves the basket
frozen and immutable. -/
theorem checkoutPost_contract_witness :
    (checkoutPost cfgAllow coTest genTest placeOkTest true userTest attrsTest).1 =
        { status := 200,
          body := ResponseBody.orderData
            { number := "100001", basketId := 1, userId := some 7,
              guestEmail := "", totalInclTax := 10000 } }
      ∧ (checkoutPost cfgAllow coTest genTest placeOkTest true userTest attrsTest).2.status =
          BasketStatus.frozen
      ∧ (checkoutPost cfgAllow coTest genTest placeOkTest true userTest attrsTest).2.canBeMutated =
          false :=
  (checkoutPost_contract cfgAllow coTest genTest placeOkTest true userTest
    attrsTest).2.2 viTest
    { number := "100001", basketId := 1, userId := some 7,
      guestEmail := "", totalInclTax := 10000 } rfl rfl rfl

/-- Counting after a pointwise edit is bounded by counting any predicate
that the edited predicate implies elementwise. -/
theorem countP_map_le_of_imp (l : List UserAddress) (g : UserAddress → UserAddress)
    (p q : UserAddress → Bool)
    (h : ∀ a ∈ l, p (g a) = true → q a = true) :
    (l.map g).countP p ≤ l.countP q := by
  rw [List.countP_map]
  exact List.countP_mono_left fun a ha hp => h a ha hp

/-- After the queryset update clearing a user's shipping defaults, that
user has no default-for-shipping address left. -/
theorem unsetShippingDefaults_count_self (uid : Nat) (s : AddressBook) :
    defaultShippingCount uid (unsetShippingDefaults uid s) = 0 := by
  unfold defaultShippingCount unsetShippingDefaults
  rw [List.countP_map, List.countP_eq_zero]
  intro a ha
  simp only [Function.comp_apply]
  by_cases hc : (a.userId == uid && a.isDefaultForShipping) = true
  · rw [if_pos hc]
    simp
  · rw [if_neg hc]
    simpa using hc

/-- Clearing one user's shipping defaults never increases any user's
default count. -/
theorem unsetShippingDefaults_count_le (uid uid' : Nat) (s : AddressBook) :
    defaultShippingCount uid (unsetShippingDefaults uid' s) ≤
      defaultShippingCount uid s := by
  unfold defaultShippingCount unsetShippingDefaults
  apply countP_map_le_of_imp
  intro a ha hp
  by_cases hc : (a.userId == uid' && a.isDefaultForShipping) = true
  · rw [if_pos hc] at hp
    simp at hp
  · rwa [if_neg hc] at hp

/-- The unset update preserves the list of primary keys. -/
theorem unsetShippingDefaults_map_id (uid : Nat) (s : AddressBook) :
    (unsetShippingDefaults uid s).map UserAddress.id = s.map UserAddress.id := by
  unfold unsetShippingDefaults
  rw [List.map_map]
  apply List.map_congr_left
  intro a ha
  by_cases hc : (a.userId == uid && a.isDefaultForShipping) = true
  · rw [Function.comp_apply, if_pos hc]
  · rw [Function.comp_apply, if_neg hc]

/-- With pairwise-distinct primary keys, at most one entry has a given id. -/
theorem countP_id_le_one (l : AddressBook) (k : Nat)
    (hn : (l.map UserAddress.id).Nodup) :
    l.countP (fun a => a.id == k) ≤ 1 := by
  induction l with
  | nil => simp
  | cons x xs ih =>
      rw [List.map_cons, List.nodup_cons] at hn
      rw [List.countP_cons]
      by_cases hx : (x.id == k) = true
      · have hzero : xs.countP (fun a => a.id == k) = 0 := by
          rw [List.countP_eq_zero]
          intro a ha hak
          apply hn.1
          have hak2 : a.id = k := by simpa using hak
          have hxk : x.id = k := by simpa using hx
          rw [hxk, ← hak2]
          exact List.mem_map_of_mem UserAddress.id ha
        rw [hzero]
        simp [hx]
      · have hle := ih hn.2
        simp [hx]
        omega

/-- countP splits across a Boolean partition of the list. -/
theorem countP_split (l : AddressBook) (p q : UserAddress → Bool) :
    l.countP p = (l.filter q).countP p + (l.filter fun a => !q a).countP p := by
  induction l with
  | nil => simp
  | cons x xs ih =>
      by_cases hq : q x = true
      · simp [List.filter_cons, hq, List.countP_cons, ih]
        omega
      · simp [List.filter_cons, hq, List.countP_cons, ih]
        omega

/-- Deleting the (unique, by the invariant) default address of a user
leaves that user with no defaults among the survivors. -/
theorem countP_erase_zero (uid addrId : Nat) (s : AddressBook) (inst : UserAddress)
    (hmem : inst ∈ s) (hid : inst.id = addrId) (huser : inst.userId = uid)
    (hflag : inst.isDefaultForShipping = true)
    (hinv : defaultShippingCount uid s ≤ 1) :
    defaultShippingCount uid (s.filter fun a => !(a.id == addrId)) = 0 := by
  unfold defaultShippingCount at *
  have hsplit := countP_split s
    (fun a => a.userId == uid && a.isDefaultForShipping) (fun a => a.id == addrId)
  have hpos : 0 < (s.filter fun a => a.id == addrId).countP
      (fun a => a.userId == uid && a.isDefaultForShipping) := by
    rw [List.countP_pos_iff]
    exact ⟨inst, List.mem_filter.mpr ⟨hmem, by simp [hid]⟩, by simp [huser, hflag]⟩
  omega

/-- Appending distributes over the default count. -/
theorem defaultShippingCount_append (uid : Nat) (s1 s2 : AddressBook) :
    defaultShippingCount uid (s1 ++ s2) =
      defaultShippingCount uid s1 + defaultShippingCount uid s2 := by
  unfold defaultShippingCount
  simp [List.countP_append]

/-- The default count of a one-element book. -/
theorem defaultShippingCount_singleton (uid : Nat) (a : UserAddress) :
    defaultShippingCount uid [a] =
      if a.userId == uid && a.isDefaultForShipping then 1 else 0 := by
  unfold defaultShippingCount
  simp [List.countP_cons]

/-- Creating an address preserves the at-most-one-default invariant for
every user. -/
theorem performCreate_preserves (uid requester : Nat) (s : AddressBook)
    (newAddr : UserAddress) (s2 : AddressBook)
    (hinv : defaultShippingCount uid s ≤ 1)
    (hok : performCreate s requester newAddr = Except.ok s2) :
    defaultShippingCount uid s2 ≤ 1 := by
  unfold performCreate at hok
  split at hok
  · cases hok
  · injection hok with hok
    subst hok
    rw [defaultShippingCount_append, defaultShippingCount_singleton]
    by_cases hflag : newAddr.isDefaultForShipping = true
    · rw [if_pos hflag]
      by_cases huid : uid = requester
      · subst huid
        rw [unsetShippingDefaults_count_self]
        split <;> omega
      · have hle := unsetShippingDefaults_count_le uid requester s
        have hone : ({ newAddr with userId := requester }.userId == uid &&
            { newAddr with userId := requester }.isDefaultForShipping) = false := by
          simp
          intro h
          omega
        rw [hone]
        simp
        omega
    · rw [if_neg hflag]
      have hzero : ({ newAddr with userId := requester }.userId == uid &&
          { newAddr with userId := requester }.isDefaultForShipping) = false := by
        have : newAddr.isDefaultForShipping = false := Bool.eq_false_iff.mpr hflag
        simp [this]
      rw [hzero]
      simp
      omega

/-- Updating an address preserves the at-most-one-default invariant for
every user, given pairwise-distinct primary keys. -/
theorem updateAddress_preserves (uid requester addrId : Nat) (s : AddressBook)
    (newData : UserAddress)
    (hids : (s.map UserAddress.id).Nodup)
    (hinv : defaultShippingCount uid s ≤ 1) :
    defaultShippingCount uid (updateAddress s requester addrId newData) ≤ 1 := by
  unfold updateAddress
  split
  · by_cases hflag : newData.isDefaultForShipping = true
    · rw [if_pos hflag]
      by_cases huid : uid = requester
      · subst huid
        unfold defaultShippingCount
        have hstep : ((unsetShippingDefaults uid s).map fun a =>
            if a.id == addrId then { newData with id := addrId, userId := uid } else a).countP
              (fun a => a.userId == uid && a.isDefaultForShipping) ≤
            (unsetShippingDefaults uid s).countP (fun a => a.id == addrId) := by
          apply countP_map_le_of_imp
          intro a ha hp
          by_cases hid : (a.id == addrId) = true
          · exact hid
          · rw [if_neg hid] at hp
            exfalso
            have h0 := unsetShippingDefaults_count_self uid s
            unfold defaultShippingCount at h0
            rw [List.countP_eq_zero] at h0
            exact h0 a ha hp
        refine le_trans hstep (countP_id_le_one _ _ ?_)
        rw [unsetShippingDefaults_map_id]
        exact hids
      · unfold defaultShippingCount
        have hstep : ((unsetShippingDefaults requester s).map fun a =>
            if a.id == addrId then { newData with id := addrId, userId := requester } else a).countP
              (fun a => a.userId == uid && a.isDefaultForShipping) ≤
            (unsetShippingDefaults requester s).countP
              (fun a => a.userId == uid && a.isDefaultForShipping) := by
          apply countP_map_le_of_imp
          intro a ha hp
          by_cases hid : (a.id == addrId) = true
          · rw [if_pos hid] at hp
            simp at hp
            omega
          · rwa [if_neg hid] at hp
        refine le_trans hstep (le_trans ?_ hinv)
        have := unsetShippingDefaults_count_le uid requester s
        unfold defaultShippingCount at this
        exact this
    · rw [if_neg hflag]
      unfold defaultShippingCount
      have hstep : (s.map fun a =>
          if a.id == addrId then { newData with id := addrId, userId := requester } else a).countP
            (fun a => a.userId == uid && a.isDefaultForShipping) ≤
          s.countP (fun a => a.userId == uid && a.isDefaultForShipping) := by
        apply countP_map_le_of_imp
        intro a ha hp
        by_cases hid : (a.id == addrId) = true
        · rw [if_pos hid] at hp
          have hfl : newData.isDefaultForShipping = false := Bool.eq_false_iff.mpr hflag
          simp [hfl] at hp
        · rwa [if_neg hid] at hp
      exact le_trans hstep hinv
  · exact hinv

/-- Deleting an address, with its default-promotion fallback, preserves
the at-most-one-default invariant for every user, given
pairwise-distinct primary keys. -/
theorem destroyAddress_preserves (uid requester addrId : Nat) (s : AddressBook)
    (hids : (s.map UserAddress.id).Nodup)
    (hinv : defaultShippingCount uid s ≤ 1) :
    defaultShippingCount uid (destroyAddress s requester addrId) ≤ 1 := by
  have hfil : defaultShippingCount uid (s.filter fun a => !(a.id == addrId)) ≤
      defaultShippingCount uid s := by
    unfold defaultShippingCount
    exact (List.filter_sublist s).countP_le _
  have hnfil : ((s.filter fun a => !(a.id == addrId)).map UserAddress.id).Nodup :=
    List.Nodup.sublist (List.Sublist.map UserAddress.id (List.filter_sublist s)) hids
  unfold destroyAddress
  cases hfind : s.find? fun a => a.id == addrId && a.userId == requester with
  | none => exact hinv
  | some inst =>
      dsimp only
      by_cases hdef : inst.isDefaultForShipping = true
      · rw [if_pos hdef]
        cases hfa : (s.filter fun a => !(a.id == addrId)).find?
            fun a => a.userId == requester with
        | none => exact le_trans hfil hinv
        | some fa =>
            have hfacts := List.find?_some hfind
            simp at hfacts
            have hmem := List.mem_of_find?_eq_some hfind
            have hfamem := List.mem_of_find?_eq_some hfa
            have hfau : fa.userId = requester := by
              have := List.find?_some hfa
              simpa using this
            by_cases huid : uid = requester
            · subst huid
              have hzero := countP_erase_zero uid addrId s inst hmem hfacts.1
                hfacts.2 hdef hinv
              unfold defaultShippingCount
              have hstep : (((s.filter fun a => !(a.id == addrId)).map fun a =>
                  if a.id == fa.id then { a with isDefaultForShipping := true } else a)).countP
                    (fun a => a.userId == uid && a.isDefaultForShipping) ≤
                  (s.filter fun a => !(a.id == addrId)).countP (fun a => a.id == fa.id) := by
                apply countP_map_le_of_imp
                intro a ha hp
                by_cases hid : (a.id == fa.id) = true
                · exact hid
                · rw [if_neg hid] at hp
                  exfalso
                  unfold defaultShippingCount at hzero
                  rw [List.countP_eq_zero] at hzero
                  exact hzero a ha hp
              exact le_trans hstep (countP_id_le_one _ _ hnfil)
            · unfold defaultShippingCount
              have hstep : (((s.filter fun a => !(a.id == addrId)).map fun a =>
                  if a.id == fa.id then { a with isDefaultForShipping := true } else a)).countP
                    (fun a => a.userId == uid && a.isDefaultForShipping) ≤
                  (s.filter fun a => !(a.id == addrId)).countP
                    (fun a => a.userId == uid && a.isDefaultForShipping) := by
                apply countP_map_le_of_imp
                intro a ha hp
                by_cases hid : (a.id == fa.id) = true
                · rw [if_pos hid] at hp
                  simp at hp
                  have haeq : a = fa :=
                    List.inj_on_of_nodup_map hnfil ha hfamem (by simpa using hid)
                  rw [haeq] at hp
                  omega
                · rwa [if_neg hid] at hp
              refine le_trans hstep (le_trans ?_ hinv)
              unfold defaultShippingCount at hfil
              exact hfil
      · rw [if_neg hdef]
        exact le_trans hfil hinv

/-- The set-default endpoint preserves the at-most-one-default invariant
for every user, provided the target address belongs to the requesting
user. -/
theorem setDefaultAddress_preserves (uid requester addrId : Nat) (ty : AddressType)
    (s : AddressBook)
    (hids : (s.map UserAddress.id).Nodup)
    (hown : ∀ a ∈ s, a.id = addrId → a.userId = requester)
    (hinv : defaultShippingCount uid s ≤ 1) :
    defaultShippingCount uid (setDefaultAddress s requester addrId ty) ≤ 1 := by
  unfold setDefaultAddress
  cases hfind : s.find? fun a => a.id == addrId with
  | none => exact hinv
  | some tgt =>
      dsimp only
      cases ty with
      | invalid => exact hinv
      | shipping =>
          by_cases huid : uid = requester
          · subst huid
            unfold defaultShippingCount
            have hstep : ((unsetShippingDefaults uid s).map fun a =>
                if a.id == addrId then { a with isDefaultForShipping := true } else a).countP
                  (fun a => a.userId == uid && a.isDefaultForShipping) ≤
                (unsetShippingDefaults uid s).countP (fun a => a.id == addrId) := by
              apply countP_map_le_of_imp
              intro a ha hp
              by_cases hid : (a.id == addrId) = true
              · exact hid
              · rw [if_neg hid] at hp
                exfalso
                have h0 := unsetShippingDefaults_count_self uid s
                unfold defaultShippingCount at h0
                rw [List.countP_eq_zero] at h0
                exact h0 a ha hp
            refine le_trans hstep (countP_id_le_one _ _ ?_)
            rw [unsetShippingDefaults_map_id]
            exact hids
          · unfold defaultShippingCount
            have hstep : ((unsetShippingDefaults requester s).map fun a =>
                if a.id == addrId then { a with isDefaultForShipping := true } else a).countP
                  (fun a => a.userId == uid && a.isDefaultForShipping) ≤
                (unsetShippingDefaults requester s).countP
                  (fun a => a.userId == uid && a.isDefaultForShipping) := by
              apply countP_map_le_of_imp
              intro a ha hp
              by_cases hid : (a.id == addrId) = true
              · rw [if_pos hid] at hp
                simp at hp
                exfalso
                unfold unsetShippingDefaults at ha
                rcases List.mem_map.mp ha with ⟨b, hbmem, hbeq⟩
                have haid : a.id = addrId := by simpa using hid
                have hbid : b.id = addrId := by
                  rw [← hbeq] at haid
                  by_cases hc : (b.userId == requester && b.isDefaultForShipping) = true
                  · rw [if_pos hc] at haid; exact haid
                  · rw [if_neg hc] at haid; exact haid
                have hbuser := hown b hbmem hbid
                have hauser : a.userId = b.userId := by
                  rw [← hbeq]
                  by_cases hc : (b.userId == requester && b.isDefaultForShipping) = true
                  · rw [if_pos hc]
                  · rw [if_neg hc]
                omega
              · rwa [if_neg hid] at hp
            refine le_trans hstep (le_trans ?_ hinv)
            have := unsetShippingDefaults_count_le uid requester s
            unfold defaultShippingCount at this
            exact this
      | billing =>
          unfold defaultShippingCount
          have hstep1 : ((s.map fun a =>
              if a.userId == requester && a.isDefaultForBilling then
                { a with isDefaultForBilling := false } else a).map fun a =>
                if a.id == addrId then { a with isDefaultForBilling := true } else a).countP
                (fun a => a.userId == uid && a.isDefaultForShipping) ≤
              (s.map fun a =>
                if a.userId == requester && a.isDefaultForBilling then
                  { a with isDefaultForBilling := false } else a).countP
                (fun a => a.userId == uid && a.isDefaultForShipping) := by
            apply countP_map_le_of_imp
            intro a ha hp
            by_cases hid : (a.id == addrId) = true
            · rw [if_pos hid] at hp
              simpa using hp
            · rwa [if_neg hid] at hp
          refine le_trans hstep1 (le_trans ?_ hinv)
          apply countP_map_le_of_imp
          intro a ha hp
          by_cases hc : (a.userId == requester && a.isDefaultForBilling) = true
          · rw [if_pos hc] at hp
            simpa using hp
          · rwa [if_neg hc] at hp

/-- Deleting the current shipping default promotes the user's first
remaining address to shipping default. -/
theorem destroyAddress_promotes (uid addrId : Nat) (s : AddressBook)
    (inst fa : UserAddress)
    (hfind : s.find? (fun a => a.id == addrId && a.userId == uid) = some inst)
    (hdef : inst.isDefaultForShipping = true)
    (hfa : (s.filter fun a => !(a.id == addrId)).find? (fun a => a.userId == uid) = some fa) :
    ∃ b ∈ destroyAddress s uid addrId, b.id = fa.id ∧ b.isDefaultForShipping = true := by
  unfold destroyAddress
  rw [hfind]
  dsimp only
  rw [if_pos hdef, hfa]
  refine ⟨{ fa with isDefaultForShipping := true }, ?_, rfl, rfl⟩
  have hmem := List.mem_of_find?_eq_some hfa
  have hx := List.mem_map_of_mem
    (fun a => if a.id == fa.id then { a with isDefaultForShipping := true } else a) hmem
  simpa using hx

/-- C10 counterexample: the invariant is not preserved by every operation.
In the concrete book where user 1 owns the default address 1 and user 2
owns the default address 2 and the non-default address 3, user 2 has
exactly one shipping default; but when user 1 invokes the set-default
endpoint on address 3 — which the endpoint permits, since it looks the
target up among all addresses — only user 1's defaults are cleared and
address 3 is flagged, leaving user 2 with two shipping defaults. -/
theorem setDefaultAddress_breaks_invariant :
    defaultShippingCount 2
        [{ id := 1, userId := 1, addressName := none,
           isDefaultForShipping := true, isDefaultForBilling := false },
         { id := 2, userId := 2, addressName := none,
           isDefaultForShipping := true, isDefaultForBilling := false },
         { id := 3, userId := 2, addressName := none,
           isDefaultForShipping := false, isDefaultForBilling := false }] = 1
    ∧ defaultShippingCount 2
        (setDefaultAddress
          [{ id := 1, userId := 1, addressName := none,
             isDefaultForShipping := true, isDefaultForBilling := false },
           { id := 2, userId := 2, addressName := none,
             isDefaultForShipping := true, isDefaultForBilling := false },
           { id := 3, userId := 2, addressName := none,
             isDefaultForShipping := false, isDefaultForBilling := false }]
          1 3 AddressType.shipping) = 2 := by
  exact ⟨rfl, rfl⟩

/-- C10 (amended): for every user, at most one saved address is flagged
default for shipping, and — given pairwise-distinct address ids — this is
preserved by address creation, by address update, by address deletion
(where deleting the current default promotes the user's first remaining
address, if any, to default), and by the set-default endpoint whenever the
target address belongs to the requesting user; the endpoint itself does
not restrict the target to the requester's own addresses. -/
theorem addressDefault_invariant (uid : Nat) (s : AddressBook)
    (hids : (s.map UserAddress.id).Nodup)
    (hinv : atMostOneDefaultShipping uid s) :
    (∀ requester newAddr s2, performCreate s requester newAddr = Except.ok s2 →
        atMostOneDefaultShipping uid s2)
    ∧ (∀ requester addrId newData,
        atMostOneDefaultShipping uid (updateAddress s requester addrId newData))
    ∧ (∀ requester addrId,
        atMostOneDefaultShipping uid (destroyAddress s requester addrId))
    ∧ (∀ requester addrId ty, (∀ a ∈ s, a.id = addrId → a.userId = requester) →
        atMostOneDefaultShipping uid (setDefaultAddress s requester addrId ty))
    ∧ (∀ addrId inst fa,
        s.find? (fun a => a.id == addrId && a.userId == uid) = some inst →
        inst.isDefaultForShipping = true →
        (s.filter fun a => !(a.id == addrId)).find? (fun a => a.userId == uid) = some fa →
        ∃ b ∈ destroyAddress s uid addrId, b.id = fa.id ∧ b.isDefaultForShipping = true) := by
  refine ⟨?_, ?_, ?_, ?_, ?_⟩
  · intro requester newAddr s2 hok
    exact performCreate_preserves uid requester s newAddr s2 hinv hok
  · intro requester addrId newData
    exact updateAddress_preserves uid requester addrId s newData hids hinv
  · intro requester addrId
    exact destroyAddress_preserves uid requester addrId s hids hinv
  · intro requester addrId ty hown
    exact setDefaultAddress_preserves uid requester addrId ty s hids hown hinv
  · intro addrId inst fa h1 h2 h3
    exact destroyAddress_promotes uid addrId s inst fa h1 h2 h3

/-- C10 witness: in a one-address book owned by user 1 with its default
flag set, updating that address (keeping the flag) preserves the
invariant. -/
theorem addressDefault_invariant_witness :
    atMostOneDefaultShipping 1
      (updateAddress
        [{ id := 1, userId := 1, addressName := none,
           isDefaultForShipping := true, isDefaultForBilling := false }] 1 1
        { id := 1, userId := 1, addressName := none,
          isDefaultForShipping := true, isDefaultForBilling := false }) :=
  (addressDefault_invariant 1
    [{ id := 1, userId := 1, addressName := none,
       isDefaultForShipping := true, isDefaultForBilling := false }]
    (by decide) (by unfold atMostOneDefaultShipping; decide)).2.1 1 1
    { id := 1, userId := 1, addressName := none,
      isDefaultForShipping := true, isDefaultForBilling := false }
